import Mathlib

/-!
Shallow embedding of the backend-dispatch and response-assembly core of the
multi-LLM chat client (src/src/main.rs).

Modelling conventions:
* JSON values produced or consumed by the program are modelled by the `Json`
  inductive; serde_json's `Value::get` (object key / array index) and
  `as_str` become `Json.get`, `Json.getIdx` and `Json.asStr`.
* The environment (HTTP peer, spawned helper process) is passed in
  explicitly: an Ollama response body is modelled as its list of lines,
  each line paired with the result of serde_json parsing for that line
  (`none` = the line is not valid JSON).
* Side effects are made observable: each backend returns its reply together
  with the list of external effects it performed (HTTP POSTs, process
  spawns).  A Rust panic (`expect` on a missing value) is modelled by
  `Outcome.panic`.
-/

namespace MultiLLClient

/-- JSON values, as parsed by serde_json. -/
inductive Json where
  | null : Json
  | bool : Bool → Json
  | num : Int → Json
  | str : String → Json
  | arr : List Json → Json
  | obj : List (String × Json) → Json

/-- serde_json `Value::get(key)`: field lookup, defined only on objects. -/
def Json.get : Json → String → Option Json
  | .obj fields, key => (fields.find? (fun p => p.1 == key)).map (fun p => p.2)
  | _, _ => none

/-- serde_json `Value::get(index)`: positional lookup, defined only on arrays. -/
def Json.getIdx : Json → Nat → Option Json
  | .arr xs, i => xs.get? i
  | _, _ => none

/-- serde_json `Value::as_str`. -/
def Json.asStr : Json → Option String
  | .str s => some s
  | _ => none

/-- Keys of a JSON object, in construction order. -/
def Json.keys : Json → List String
  | .obj fields => fields.map Prod.fst
  | _ => []

/-- Config struct of main.rs (fields in declaration order). -/
structure Config where
  model_name : String
  endpoint : Option String
  use_local_model : Bool
  local_framework : Option String
  openai_compatible : Bool
  max_tokens : Option Nat
  api_key : Option String

/-- An HTTP POST request as built by the reqwest client calls: URL, JSON
body, and the optional value of the Authorization header. -/
structure HttpRequest where
  url : String
  body : Json
  authorization : Option String

/-- A spawned child process: program name and argument list. -/
structure SpawnedCommand where
  program : String
  args : List String

/-- Observable external effects of one dispatch. -/
inductive Effect where
  | httpPost : HttpRequest → Effect
  | spawn : SpawnedCommand → Effect

/-- A computed value together with the external effects performed while
computing it. -/
structure Traced (α : Type) where
  result : α
  effects : List Effect

/-- Result of running Rust code that may panic (via `expect`). -/
inductive Outcome (α : Type) where
  | panic : String → Outcome α
  | value : α → Outcome α

/-- Truth value of "the computation returned normally (did not panic)". -/
def Outcome.isValue {α : Type} : Outcome α → Bool
  | .panic _ => false
  | .value _ => true

/-- Result of `Command::output().await` for the helper process: either a
spawn failure, or a finished process with exit code (`none` = killed by a
signal, so `status.success()` is false), stdout and stderr (both already
lossily decoded to strings). -/
inductive SpawnResult where
  | spawnErr : String → SpawnResult
  | finished : Option Int → String → String → SpawnResult

/-- Result of `client.post(..).send().await` followed by `.text().await`
for the Ollama backend: transport error, body-text read failure, or the
body split into lines with each line's serde parse result. -/
inductive HttpTextResult where
  | err : String → HttpTextResult
  | okTextFail : HttpTextResult
  | okText : List (Option Json) → HttpTextResult

/-- Result of `send().await` / `res.json().await` for the online backend:
either of the two fallible awaits fails (propagated by `?` as a
reqwest::Error), or a parsed JSON response. -/
inductive OnlinePeer where
  | sendErr : String → OnlinePeer
  | jsonErr : String → OnlinePeer
  | okJson : Json → OnlinePeer

/-- Behaviour of the outside world for one dispatch: the helper process,
the Ollama peer and the online peer. -/
structure World where
  spawn : SpawnResult
  ollamaPeer : HttpTextResult
  onlinePeer : OnlinePeer

/-- Model of Rust `str::trim`: drop whitespace characters from both ends.
(Whitespace classification is Lean's `Char.isWhitespace`; it agrees with
Rust on the ASCII whitespace relevant here.) -/
def rust_trim (s : String) : String :=
  ⟨((s.data.dropWhile Char.isWhitespace).reverse.dropWhile
      Char.isWhitespace).reverse⟩

/-- Model of Rust `str::trim_end`: drop whitespace characters from the end
only.  Used to state the spec's "trailing whitespace trimmed". -/
def rust_trim_end (s : String) : String :=
  ⟨(s.data.reverse.dropWhile Char.isWhitespace).reverse⟩

/-- Command spawned by python_inference: `Command::new("python")
.arg("./llm_interface.py").arg(prompt)`.  The config parameter is unused in
the source (`_config`). -/
def python_command (prompt : String) (_config : Config) : SpawnedCommand :=
  ⟨"python", ["./llm_interface.py", prompt]⟩

/-- python_inference of main.rs: run the helper, then on exit code 0 return
trimmed stdout, on other exits return a sentinel embedding stderr, and on a
spawn failure return a sentinel embedding the error. -/
def python_inference (prompt : String) (config : Config)
    (spawned : SpawnResult) : Traced String :=
  let cmd := python_command prompt config
  match spawned with
  | .finished code stdout stderr =>
    if code = some 0 then
      ⟨rust_trim stdout, [.spawn cmd]⟩
    else
      ⟨"Pythonスクリプトエラー: " ++ stderr, [.spawn cmd]⟩
  | .spawnErr e => ⟨"Pythonスクリプト呼び出しエラー: " ++ e, [.spawn cmd]⟩

/-- HTTP request built by ollama_inference: default endpoint when unset,
body `{model, prompt, max_tokens}` with max_tokens defaulting to 64, no
Authorization header. -/
def ollama_request (prompt : String) (config : Config) : HttpRequest :=
  ⟨config.endpoint.getD "http://localhost:11434/api/generate",
   .obj [("model", .str config.model_name),
         ("prompt", .str prompt),
         ("max_tokens", .num (config.max_tokens.getD 64))],
   none⟩

/-- Loop body of ollama_inference: for a parsed line, append its string
`response` field to the accumulator when present. -/
def collect_step (acc : String) (parsed : Option Json) : String :=
  match parsed with
  | some json =>
    match (json.get "response").bind Json.asStr with
    | some resp => acc ++ resp
    | none => acc
  | none => acc

/-- Accumulator produced by the line loop of ollama_inference. -/
def collect_responses (lines : List (Option Json)) : String :=
  lines.foldl collect_step ""

/-- Final reply assembly of ollama_inference: the sentinel when the
accumulator is empty, the accumulator otherwise. -/
def ollama_assemble (lines : List (Option Json)) : String :=
  let collected := collect_responses lines
  if collected.isEmpty then "Ollama推論エラー" else collected

/-- ollama_inference of main.rs.  On a transport error the reply embeds the
error; when reading the body text fails the fallback text is a single line
that is not valid JSON, so it is processed like one unparseable line. -/
def ollama_inference (prompt : String) (config : Config)
    (peer : HttpTextResult) : Traced String :=
  let req := ollama_request prompt config
  match peer with
  | .err e => ⟨"Ollama推論エラー: " ++ e, [.httpPost req]⟩
  | .okTextFail => ⟨ollama_assemble [none], [.httpPost req]⟩
  | .okText lines => ⟨ollama_assemble lines, [.httpPost req]⟩

/-- Request body built by online_inference: `{model, prompt, max_tokens}`
in OpenAI-compatible mode, `{model, input, max_tokens}` otherwise. -/
def online_request_body (config : Config) (prompt : String) : Json :=
  if config.openai_compatible then
    .obj [("model", .str config.model_name),
          ("prompt", .str prompt),
          ("max_tokens", .num (config.max_tokens.getD 64))]
  else
    .obj [("model", .str config.model_name),
          ("input", .str prompt),
          ("max_tokens", .num (config.max_tokens.getD 64))]

/-- Full HTTP request of the online backend: the Authorization header
`Bearer <api_key>` is attached exactly when api_key is set. -/
def online_request (endpoint : String) (config : Config)
    (prompt : String) : HttpRequest :=
  ⟨endpoint, online_request_body config prompt,
   config.api_key.map (fun k => "Bearer " ++ k)⟩

/-- Reply extraction of online_inference: `choices[0].text` in
OpenAI-compatible mode, `generated_text` otherwise, with a fixed sentinel
when the path is missing or not a string. -/
def extract_online (openai_compatible : Bool) (res_json : Json) : String :=
  if openai_compatible then
    ((((res_json.get "choices").bind (fun choices => choices.getIdx 0)).bind
        (fun choice => choice.get "text")).bind Json.asStr).getD
      "レスポンスが不正です"
  else
    ((res_json.get "generated_text").bind Json.asStr).getD
      "レスポンスが不正です"

/-- online_inference of main.rs.  A missing endpoint panics (`expect`);
both fallible awaits propagate a reqwest::Error via `?` (modelled as
`Except.error`); otherwise the extracted reply is returned. -/
def online_inference (config : Config) (prompt : String)
    (peer : OnlinePeer) : Outcome (Traced (Except String String)) :=
  match config.endpoint with
  | none => .panic "オンライン推論用のendpointが設定されていません"
  | some endpoint =>
    let req := online_request endpoint config prompt
    match peer with
    | .sendErr e => .value ⟨.error e, [.httpPost req]⟩
    | .jsonErr e => .value ⟨.error e, [.httpPost req]⟩
    | .okJson j =>
      .value ⟨.ok (extract_online config.openai_compatible j), [.httpPost req]⟩

/-- local_inference of main.rs: look the framework tag up in the table
{"python", "ollama"}; unknown or unset tags yield the unsupported-framework
sentinel without performing any effect. -/
def local_inference (prompt : String) (config : Config) (w : World) :
    Traced String :=
  match config.local_framework with
  | some fw =>
    if fw = "python" then python_inference prompt config w.spawn
    else if fw = "ollama" then ollama_inference prompt config w.ollamaPeer
    else ⟨"サポートされていないローカルフレームワークです", []⟩
  | none => ⟨"サポートされていないローカルフレームワークです", []⟩

/-- Online arm of the REPL loop body: an `Err` from online_inference is
rendered as the online-error sentinel embedding the diagnostic. -/
def online_reply (config : Config) (prompt : String) (peer : OnlinePeer) :
    Outcome (Traced String) :=
  match online_inference config prompt peer with
  | .panic m => .panic m
  | .value t =>
    .value ⟨(match t.result with
             | .ok text => text
             | .error e => "オンライン推論エラー: " ++ e), t.effects⟩

/-- Per-prompt dispatch of the REPL loop body in main: local_inference when
use_local_model is set, the online arm otherwise. -/
def dispatch (config : Config) (prompt : String) (w : World) :
    Outcome (Traced String) :=
  if config.use_local_model then .value (local_inference prompt config w)
  else online_reply config prompt w.onlinePeer

/-- Restatement of the spec: contribution of one body line to the reply —
the string value of its `response` field, or the empty string for lines
that are not JSON or lack a string `response` field. -/
def response_fragment : Option Json → String
  | some j => ((j.get "response").bind Json.asStr).getD ""
  | none => ""

/-- Restatement of the spec: concatenation of the fragments of all body
lines in order. -/
def concat_responses : List (Option Json) → String
  | [] => ""
  | l :: ls => response_fragment l ++ concat_responses ls

theorem collect_step_eq (acc : String) (l : Option Json) :
    collect_step acc l = acc ++ response_fragment l := by
  cases l with
  | none => simp [collect_step, response_fragment]
  | some j =>
    cases h : (j.get "response").bind Json.asStr with
    | none => simp [collect_step, response_fragment, h]
    | some resp => simp [collect_step, response_fragment, h]

theorem collect_foldl (lines : List (Option Json)) (acc : String) :
    lines.foldl collect_step acc = acc ++ concat_responses lines := by
  induction lines generalizing acc with
  | nil => simp [concat_responses]
  | cons l ls ih =>
    simp [concat_responses, List.foldl, collect_step_eq, ih,
      String.append_assoc]

theorem collect_responses_eq (lines : List (Option Json)) :
    collect_responses lines = concat_responses lines := by
  simpa using collect_foldl lines ""

/-- C1: for every Config, prompt and world, dispatch selects exactly one
backend: the online arm when use_local_model is false; the subprocess
backend when use_local_model is true and local_framework is "python"; the
Ollama backend when it is "ollama"; and for any other or unset framework
the reply is the unsupported-local-framework sentinel with an empty effect
trace, so no HTTP request is sent and no process is spawned. -/
theorem c1_dispatch_selection (config : Config) (prompt : String) (w : World) :
    (config.use_local_model = false →
      dispatch config prompt w = online_reply config prompt w.onlinePeer) ∧
    (config.use_local_model = true → config.local_framework = some "python" →
      dispatch config prompt w = .value (python_inference prompt config w.spawn)) ∧
    (config.use_local_model = true → config.local_framework = some "ollama" →
      dispatch config prompt w = .value (ollama_inference prompt config w.ollamaPeer)) ∧
    (config.use_local_model = true →
      (∀ fw, config.local_framework = some fw → fw ≠ "python" → fw ≠ "ollama" →
        dispatch config prompt w =
          .value ⟨"サポートされていないローカルフレームワークです", []⟩) ∧
      (config.local_framework = none →
        dispatch config prompt w =
          .value ⟨"サポートされていないローカルフレームワークです", []⟩)) := by
  refine ⟨?_, ?_, ?_, ?_⟩
  · intro h; simp [dispatch, h]
  · intro h hf; simp [dispatch, h, local_inference, hf]
  · intro h hf; simp [dispatch, h, local_inference, hf]
  · intro h
    constructor
    · intro fw hf h1 h2
      simp [dispatch, h, local_inference, hf, h1, h2]
    · intro hf
      simp [dispatch, h, local_inference, hf]

/-- Witness for C1: the concrete Config with local_framework "julia" yields
the unsupported sentinel and performs no effect. -/
theorem c1_dispatch_selection_witness :
    dispatch ⟨"m", none, true, some "julia", false, none, none⟩ "hi"
        ⟨.spawnErr "e", .okText [], .sendErr "e"⟩ =
      .value ⟨"サポートされていないローカルフレームワークです", []⟩ :=
  ((c1_dispatch_selection ⟨"m", none, true, some "julia", false, none, none⟩
      "hi" ⟨.spawnErr "e", .okText [], .sendErr "e"⟩).2.2.2 rfl).1
    "julia" rfl (by decide) (by decide)

/-- Counterexample to C2 as stated: for the body consisting of the single
line `{"done":true}` the reply is the EmptyStream sentinel, not the (empty)
concatenation of the `response` fields. -/
theorem c2_counterexample :
    (ollama_inference "hi" ⟨"m", none, true, some "ollama", false, none, none⟩
        (.okText [some (.obj [("done", .bool true)])])).result ≠
      concat_responses [some (.obj [("done", .bool true)])] := by
  decide

/-- C2 (amended): for every Ollama response body whose fragments do not all
concatenate to the empty string, the reply equals the concatenation, in
line order, of the string `response` fields of the lines that parse as JSON
objects carrying one; other lines contribute nothing.  (When the
concatenation is empty the code instead returns the EmptyStream sentinel,
see C6.) -/
theorem c2_ollama_concatenation (prompt : String) (config : Config)
    (lines : List (Option Json)) (h : concat_responses lines ≠ "") :
    (ollama_inference prompt config (.okText lines)).result =
      concat_responses lines := by
  have hc : collect_responses lines = concat_responses lines :=
    collect_responses_eq lines
  have hne : ¬ ((concat_responses lines).isEmpty = true) := fun he =>
    h ((String.isEmpty_iff _).mp he)
  simp [ollama_inference, ollama_assemble, hc, hne]

/-- Witness for C2: the three-line body from the spec's scenario 3
reassembles to "hello". -/
theorem c2_ollama_concatenation_witness :
    (ollama_inference "hi" ⟨"m", none, true, some "ollama", false, none, none⟩
        (.okText [some (.obj [("response", .str "he")]),
                  some (.obj [("response", .str "llo")]),
                  some (.obj [("done", .bool true)])])).result =
      concat_responses [some (.obj [("response", .str "he")]),
                        some (.obj [("response", .str "llo")]),
                        some (.obj [("done", .bool true)])] :=
  c2_ollama_concatenation "hi" ⟨"m", none, true, some "ollama", false, none, none⟩
    [some (.obj [("response", .str "he")]),
     some (.obj [("response", .str "llo")]),
     some (.obj [("done", .bool true)])] (by decide)

/-- C3: for every Config with use_local_model false and every prompt, the
online request body is a JSON object whose keys are exactly {model,
max_tokens} plus `prompt` in OpenAI-compatible mode or `input` otherwise,
and never both. -/
theorem c3_online_request_keys (config : Config) (prompt : String)
    (_h : config.use_local_model = false) :
    Json.keys (online_request_body config prompt) =
      (if config.openai_compatible then ["model", "prompt", "max_tokens"]
       else ["model", "input", "max_tokens"]) ∧
    ("prompt" ∈ Json.keys (online_request_body config prompt) ↔
      config.openai_compatible = true) ∧
    ("input" ∈ Json.keys (online_request_body config prompt) ↔
      config.openai_compatible = false) := by
  cases hc : config.openai_compatible with
  | false => simp [online_request_body, Json.keys, hc]
  | true => simp [online_request_body, Json.keys, hc]

/-- Witness for C3: the concrete OpenAI-compatible Config produces the keys
model, prompt, max_tokens. -/
theorem c3_online_request_keys_witness :
    Json.keys (online_request_body
        ⟨"m", some "http://h/v1", false, none, true, some 32, none⟩ "hi") =
      ["model", "prompt", "max_tokens"] := by
  have h := (c3_online_request_keys
    ⟨"m", some "http://h/v1", false, none, true, some 32, none⟩ "hi" rfl).1
  simpa using h

/-- C4: for every online response whose parsed JSON lacks the expected
reply path as a string (choices[0].text in OpenAI-compatible mode,
generated_text otherwise), online_inference yields the fixed
invalid-response sentinel (spelled in Japanese in the source). -/
theorem c4_invalid_response_sentinel (config : Config) (endpoint : String)
    (prompt : String) (j : Json) (he : config.endpoint = some endpoint) :
    (config.openai_compatible = true →
      (((j.get "choices").bind (fun choices => choices.getIdx 0)).bind
          (fun choice => choice.get "text")).bind Json.asStr = none →
      online_inference config prompt (.okJson j) =
        .value ⟨.ok "レスポンスが不正です",
                [.httpPost (online_request endpoint config prompt)]⟩) ∧
    (config.openai_compatible = false →
      (j.get "generated_text").bind Json.asStr = none →
      online_inference config prompt (.okJson j) =
        .value ⟨.ok "レスポンスが不正です",
                [.httpPost (online_request endpoint config prompt)]⟩) := by
  constructor
  · intro hc hmiss
    simp [online_inference, he, extract_online, hc, hmiss]
  · intro hc hmiss
    simp [online_inference, he, extract_online, hc, hmiss]

/-- Witness for C4: the response `{"choices":[]}` in OpenAI-compatible mode
yields the invalid-response sentinel. -/
theorem c4_invalid_response_sentinel_witness :
    online_inference ⟨"m", some "http://h", false, none, true, none, none⟩
        "hi" (.okJson (.obj [("choices", .arr [])])) =
      .value ⟨.ok "レスポンスが不正です",
              [.httpPost (online_request "http://h"
                ⟨"m", some "http://h", false, none, true, none, none⟩ "hi")]⟩ :=
  (c4_invalid_response_sentinel
      ⟨"m", some "http://h", false, none, true, none, none⟩ "http://h" "hi"
      (.obj [("choices", .arr [])]) rfl).1 rfl rfl

/-- Counterexample to C5 as stated: with use_local_model false and no
endpoint, dispatch does not return a sentinel string — online_inference
panics (the source calls expect on the missing endpoint), terminating the
process. -/
theorem c5_counterexample :
    dispatch ⟨"m", none, false, none, true, none, some "k"⟩ "hi"
        ⟨.spawnErr "e", .okText [], .okJson (.obj [])⟩ =
      .panic "オンライン推論用のendpointが設定されていません" := rfl

/-- C5 (amended): for every Config that has an endpoint whenever
use_local_model is false, dispatch always returns a reply string and never
panics, and in particular a transport failure of the online backend is
converted to the online-error sentinel embedding the diagnostic.  (A
missing endpoint in online mode, by contrast, panics: see the
counterexample.) -/
theorem c5_dispatch_total (config : Config) (prompt : String) (w : World)
    (h : config.use_local_model = false → config.endpoint.isSome = true) :
    (dispatch config prompt w).isValue = true ∧
    (∀ e, config.use_local_model = false → w.onlinePeer = .sendErr e →
      ∀ u, config.endpoint = some u →
      dispatch config prompt w =
        .value ⟨"オンライン推論エラー: " ++ e,
                [.httpPost (online_request u config prompt)]⟩) := by
  constructor
  · cases hl : config.use_local_model with
    | true => simp [dispatch, hl, Outcome.isValue]
    | false =>
      obtain ⟨u, hu⟩ := Option.isSome_iff_exists.mp (h hl)
      cases hp : w.onlinePeer with
      | sendErr e =>
        simp [dispatch, hl, online_reply, online_inference, hu, hp,
          Outcome.isValue]
      | jsonErr e =>
        simp [dispatch, hl, online_reply, online_inference, hu, hp,
          Outcome.isValue]
      | okJson j =>
        simp [dispatch, hl, online_reply, online_inference, hu, hp,
          Outcome.isValue]
  · intro e hl hp u hu
    simp [dispatch, hl, online_reply, online_inference, hu, hp]

/-- Witness for C5: a concrete online Config whose peer fails at send gets
the online-error sentinel embedding the diagnostic. -/
theorem c5_dispatch_total_witness :
    dispatch ⟨"m", some "http://h", false, none, true, none, none⟩ "hi"
        ⟨.spawnErr "x", .okText [], .sendErr "boom"⟩ =
      .value ⟨"オンライン推論エラー: boom",
              [.httpPost (online_request "http://h"
                ⟨"m", some "http://h", false, none, true, none, none⟩ "hi")]⟩ :=
  (c5_dispatch_total ⟨"m", some "http://h", false, none, true, none, none⟩
      "hi" ⟨.spawnErr "x", .okText [], .sendErr "boom"⟩ (fun _ => rfl)).2
    "boom" rfl rfl "http://h" rfl

/-- C6: for every Ollama response body none of whose lines carries a string
`response` field (in particular the empty body), the reply is the
EmptyStream sentinel (spelled in Japanese in the source). -/
theorem c6_empty_stream_sentinel (prompt : String) (config : Config)
    (lines : List (Option Json))
    (h : ∀ l ∈ lines, (l.bind fun j => (j.get "response").bind Json.asStr) = none) :
    (ollama_inference prompt config (.okText lines)).result =
      "Ollama推論エラー" := by
  have hempty : ∀ ls : List (Option Json),
      (∀ l ∈ ls, (l.bind fun j => (j.get "response").bind Json.asStr) = none) →
      concat_responses ls = "" := by
    intro ls
    induction ls with
    | nil => intro _; rfl
    | cons a as ih =>
      intro hh
      have ha := hh a (List.mem_cons_self a as)
      have hfrag : response_fragment a = "" := by
        cases a with
        | none => rfl
        | some j =>
          have ha' : (j.get "response").bind Json.asStr = none := ha
          simp [response_fragment, ha']
      have htail := ih (fun l hl => hh l (List.mem_cons_of_mem a hl))
      simp [concat_responses, hfrag, htail]
  have hc : collect_responses lines = "" :=
    (collect_responses_eq lines).trans (hempty lines h)
  simp only [ollama_inference, ollama_assemble, hc]
  rfl

/-- Witness for C6: the entirely empty body yields the EmptyStream
sentinel. -/
theorem c6_empty_stream_sentinel_witness :
    (ollama_inference "hi" ⟨"m", none, true, some "ollama", false, none, none⟩
        (.okText [])).result = "Ollama推論エラー" :=
  c6_empty_stream_sentinel "hi"
    ⟨"m", none, true, some "ollama", false, none, none⟩ [] (by simp)

/-- Counterexample to C7 as stated: for stdout " hi\n" on exit code 0 the
reply is "hi" — the code trims leading whitespace as well, so the reply is
not the stdout with only trailing whitespace trimmed (" hi"). -/
theorem c7_counterexample :
    (python_inference "hi" ⟨"m", none, true, some "python", false, none, none⟩
        (.finished (some 0) " hi\n" "")).result ≠ rust_trim_end " hi\n" := by
  decide

/-- C7 (amended): for every prompt dispatched to the subprocess backend, on
exit code 0 the reply is stdout with leading and trailing whitespace
trimmed; on any other exit the reply is a sentinel embedding stderr; and on
a spawn failure the reply is a sentinel embedding the underlying error.  In
every case exactly the helper command is spawned. -/
theorem c7_python_subprocess (prompt : String) (config : Config)
    (code : Option Int) (stdout stderr e : String) :
    (code = some 0 →
      python_inference prompt config (.finished code stdout stderr) =
        ⟨rust_trim stdout, [.spawn (python_command prompt config)]⟩) ∧
    (code ≠ some 0 →
      python_inference prompt config (.finished code stdout stderr) =
        ⟨"Pythonスクリプトエラー: " ++ stderr,
         [.spawn (python_command prompt config)]⟩) ∧
    (python_inference prompt config (.spawnErr e) =
      ⟨"Pythonスクリプト呼び出しエラー: " ++ e,
       [.spawn (python_command prompt config)]⟩) := by
  refine ⟨?_, ?_, rfl⟩
  · intro hc; simp [python_inference, hc]
  · intro hc; simp [python_inference, hc]

/-- Witness for C7: the helper printing "hi\n" and exiting 0 yields the
reply "hi". -/
theorem c7_python_subprocess_witness :
    python_inference "hi" ⟨"m", none, true, some "python", false, none, none⟩
        (.finished (some 0) "hi\n" "") =
      ⟨"hi", [.spawn (python_command "hi"
        ⟨"m", none, true, some "python", false, none, none⟩)]⟩ := by
  have h := (c7_python_subprocess "hi"
    ⟨"m", none, true, some "python", false, none, none⟩
    (some 0) "hi\n" "" "x").1 rfl
  rw [h, show rust_trim "hi\n" = "hi" from by decide]

/-- C8: for every Config with max_tokens unset and every prompt, both the
online request body and the Ollama request body carry max_tokens equal to
64. -/
theorem c8_default_max_tokens (config : Config) (prompt : String)
    (h : config.max_tokens = none) :
    (online_request_body config prompt).get "max_tokens" = some (.num 64) ∧
    (ollama_request prompt config).body.get "max_tokens" = some (.num 64) := by
  constructor
  · cases hc : config.openai_compatible with
    | false => simp [online_request_body, Json.get, hc, h]
    | true => simp [online_request_body, Json.get, hc, h]
  · simp [ollama_request, Json.get, h]

/-- Witness for C8: a concrete Config with max_tokens unset puts 64 in both
request bodies. -/
theorem c8_default_max_tokens_witness :
    (online_request_body ⟨"m", some "http://h", false, none, true, none, none⟩
        "hi").get "max_tokens" = some (.num 64) ∧
    (ollama_request "hi" ⟨"m", some "http://h", false, none, true, none,
        none⟩).body.get "max_tokens" = some (.num 64) :=
  c8_default_max_tokens ⟨"m", some "http://h", false, none, true, none, none⟩
    "hi" rfl

/-- C9: for any two Configs that differ only in api_key, the Ollama backend
builds the identical HTTP request, and that request carries no
Authorization header; the online backend, by contrast, attaches the bearer
header exactly when api_key is set. -/
theorem c9_ollama_ignores_api_key (ca cb : Config) (prompt : String)
    (h : ca.model_name = cb.model_name ∧ ca.endpoint = cb.endpoint ∧
      ca.use_local_model = cb.use_local_model ∧
      ca.local_framework = cb.local_framework ∧
      ca.openai_compatible = cb.openai_compatible ∧
      ca.max_tokens = cb.max_tokens) :
    ollama_request prompt ca = ollama_request prompt cb ∧
    (ollama_request prompt ca).authorization = none ∧
    (∀ u k, ca.api_key = some k →
      (online_request u ca prompt).authorization = some ("Bearer " ++ k)) := by
  obtain ⟨h1, h2, _h3, _h4, _h5, h6⟩ := h
  refine ⟨?_, rfl, ?_⟩
  · simp [ollama_request, h1, h2, h6]
  · intro u k hk
    simp [online_request, hk]

/-- Witness for C9: two concrete Configs identical except for api_key build
the same Ollama request, and it has no Authorization header. -/
theorem c9_ollama_ignores_api_key_witness :
    ollama_request "hi" ⟨"m", none, true, some "ollama", false, none, none⟩ =
      ollama_request "hi"
        ⟨"m", none, true, some "ollama", false, none, some "secret"⟩ ∧
    (ollama_request "hi"
        ⟨"m", none, true, some "ollama", false, none, none⟩).authorization =
      none :=
  ⟨(c9_ollama_ignores_api_key
      ⟨"m", none, true, some "ollama", false, none, none⟩
      ⟨"m", none, true, some "ollama", false, none, some "secret"⟩ "hi"
      ⟨rfl, rfl, rfl, rfl, rfl, rfl⟩).1,
   (c9_ollama_ignores_api_key
      ⟨"m", none, true, some "ollama", false, none, none⟩
      ⟨"m", none, true, some "ollama", false, none, some "secret"⟩ "hi"
      ⟨rfl, rfl, rfl, rfl, rfl, rfl⟩).2.1⟩

/-- C10: for every prompt and any two Configs, the subprocess backend
spawns exactly the command `python ./llm_interface.py <prompt>`; the
command is independent of every Config field, so the helper path is not
configurable, and whatever the spawn result, exactly that one command is
spawned. -/
theorem c10_python_command_fixed (ca cb : Config) (prompt : String)
    (s : SpawnResult) :
    python_command prompt ca = ⟨"python", ["./llm_interface.py", prompt]⟩ ∧
    python_command prompt ca = python_command prompt cb ∧
    (python_inference prompt ca s).effects =
      [.spawn ⟨"python", ["./llm_interface.py", prompt]⟩] := by
  refine ⟨rfl, rfl, ?_⟩
  cases s with
  | spawnErr e => rfl
  | finished code stdout stderr =>
    by_cases hc : code = some 0
    · simp [python_inference, hc, python_command]
    · simp [python_inference, hc, python_command]

end MultiLLClient
